import Mathlib

/-!
Shallow embedding of the `ichatbio-bhl-agent` pipeline
(`src/entrypoints/search_bhl.py`, `src/schema.py`, `src/agent.py`).

Python dictionaries of query parameters are modelled as ordered association
lists of `String × PValue`; Python truthiness is modelled by `PValue.truthy`.
The external collaborators (the LLM generation service, the HTTP transport,
the response body and its parse outcome) are inputs to the pipeline function.
-/

set_option autoImplicit false

namespace BHL

/-- A Python value appearing in the query-parameter dictionaries:
a string, an integer, or `None`. -/
inductive PValue where
  | vStr (s : String)
  | vInt (n : Int)
  | vNone
  deriving DecidableEq, Repr

/-- Python truthiness for the values above: `""`, `0` and `None` are falsy. -/
def PValue.truthy : PValue → Bool
  | .vStr s => !(s = "")
  | .vInt n => !(n = 0)
  | .vNone => false

/-- Python `v or ""`: a falsy value is replaced by the empty string
(line 60 of `search_bhl.py`). -/
def PValue.orEmptyStr (v : PValue) : PValue :=
  if v.truthy then v else .vStr ""

/-- An ordered Python dict with string keys, as an association list. -/
abbrev Dict : Type := List (String × PValue)

/-- `d[k] = v` on a Python dict: update the value in place when the key is
present (keeping its position), otherwise append the new entry. -/
def dictInsert (d : Dict) (k : String) (v : PValue) : Dict :=
  if d.any (fun kv => kv.1 = k) then
    d.map (fun kv => if kv.1 = k then (k, v) else kv)
  else
    d ++ [(k, v)]

/-- Python `d1 | d2` / `d1 |= d2`: entries of `d2` inserted into `d1`
left to right, the right operand winning on key collisions. -/
def dictMerge (d1 d2 : Dict) : Dict :=
  d2.foldl (fun acc kv => dictInsert acc kv.1 kv.2) d1

/-- Dictionary lookup (first entry with the given key). -/
def dictLookup (d : Dict) (k : String) : Option PValue :=
  match d.find? (fun kv => kv.1 = k) with
  | some kv => some kv.2
  | none => none

/-- The keys of a dict, in order. -/
def dictKeys (d : Dict) : List String :=
  d.map (fun kv => kv.1)

/-- `{k: v for k, v in d.items() if v}`: keep only truthy-valued entries
(line 66 of `search_bhl.py`). -/
def pruneFalsy (d : Dict) : Dict :=
  d.filter (fun kv => kv.2.truthy)

/-- Python `str(x)` on an `Optional[str]` interpolated into an f-string:
`None` renders as the literal text `None`. -/
def pyStrOptional : Option String → String
  | some s => s
  | none => "None"

/-- Python truthiness of an `Optional[str]`: `None` and `""` are falsy. -/
def truthyOptStr : Option String → Bool
  | some s => !(s = "")
  | none => false

/-- `schema.Publication` (only the discriminator fields are ever consulted
by the pipeline; the remaining ~20 optional attributes ride along in the
raw payload and are irrelevant to control flow). -/
structure Publication where
  bhl_type : String
  found_in : String
  deriving DecidableEq, Repr

/-- `schema.PublicationSearchResponse`: the search response envelope, with
aliased fields `Status`, `ErrorMessage`, `Result`. -/
structure PublicationSearchResponse where
  status : Option String
  error_message : Option String
  result : List Publication
  deriving DecidableEq, Repr

/-- `schema.SimplePublicationSearchParameters`. -/
structure SimplePublicationSearchParameters where
  searchterm : String
  searchtype : String
  page : Int
  pageSize : Int
  deriving DecidableEq, Repr

/-- `LLMSimpleSearchParameters` (`search_bhl.py`, lines 112-117): the
intermediate generation result produced by the constrained LLM call.
`search_type` is declared `Literal["catalog", "catalog_and_full_text"]`
in the source but carried here as a plain string because its pydantic
default, the string `"C"`, lies outside that declared domain. -/
structure LLMSimpleSearchParameters where
  search_terms : List String
  search_type : String
  page : Int
  page_size : Int
  deriving DecidableEq, Repr

/-- The declared two-value domain of the `search_type` field
(`Literal["catalog", "catalog_and_full_text"]`). -/
def search_type_domain : List String := ["catalog", "catalog_and_full_text"]

/-- Pydantic validation of the `search_type` field: a provided value is
checked against the `Literal` domain, but the field default `"C"` is used
as-is when the field is absent — pydantic does not validate defaults
(`validate_default` is false), so the out-of-domain default passes. -/
def validateSearchType : Option String → Except String String
  | none => .ok "C"
  | some s => if s ∈ search_type_domain then .ok s else .error "not a permitted literal"

/-- `params.model_dump()` of `SimplePublicationSearchParameters`, in field
declaration order. -/
def modelDump (p : SimplePublicationSearchParameters) : Dict :=
  [("searchterm", .vStr p.searchterm),
   ("searchtype", .vStr p.searchtype),
   ("page", .vInt p.page),
   ("pageSize", .vInt p.pageSize)]

/-- `API_URL` from `search_bhl.py`. -/
def API_URL : String := "https://www.biodiversitylibrary.org/api3"

/-- One attempt outcome offered by the generation service: a validated
structure, a schema-validation failure (retryable), or a terminal service
error (non-retryable). -/
inductive GenAttempt where
  | success (p : LLMSimpleSearchParameters)
  | schemaFailure (msg : String)
  | terminalError (msg : String)
  deriving DecidableEq, Repr

/-- The cause carried by an `InstructorRetryException`: the retry budget
was exhausted, or a terminal error was detected. -/
inductive InstructorRetryCause where
  | exhausted
  | terminal (msg : String)
  deriving DecidableEq, Repr

/-- `util.AIGenerationException`, wrapping the instructor retry failure. -/
structure AIGenerationException where
  cause : InstructorRetryCause
  deriving DecidableEq, Repr

/-- Modelled from the spec: `util.StopOnTerminalErrorOrMaxAttempts(3)` —
the module `util` is not present under `src/`. Per the spec (§4.1), the
generation service retries on schema-validation failure up to the fixed
attempt ceiling of 3, and stops immediately, without further retries, when
a terminal error is detected. -/
def retryGenerate : List GenAttempt → Nat → Except InstructorRetryCause LLMSimpleSearchParameters
  | _, 0 => .error .exhausted
  | [], _ => .error .exhausted
  | a :: rest, b + 1 =>
    match a with
    | .success p => .ok p
    | .terminalError m => .error (.terminal m)
    | .schemaFailure _ => retryGenerate rest b

/-- The deterministic mapping from the intermediate generation result to
the API's simple-search parameters (`search_bhl.py`, lines 158-163). -/
def mapLLMParamsToApi (p : LLMSimpleSearchParameters) : SimplePublicationSearchParameters :=
  { searchterm := String.intercalate " OR " p.search_terms
  , searchtype := if p.search_type = "catalog" then "C" else "F"
  , page := p.page
  , pageSize := p.page_size }

/-- `str(e)` for the `AIGenerationException` logged by `run`
(modelled rendering of the wrapped cause). -/
def aiGenerationExceptionMessage (e : AIGenerationException) : String :=
  match e.cause with
  | .exhausted => "InstructorRetryException: max attempts reached"
  | .terminal m => "InstructorRetryException: " ++ m

/-- `_generate_search_parameters` (`search_bhl.py`, lines 143-167): run the
constrained generation call under the retry policy; on success map the
result to `SimplePublicationSearchParameters`; an `InstructorRetryException`
is re-raised as `AIGenerationException` carrying the underlying cause. -/
def generateSearchParameters (attempts : List GenAttempt) :
    Except AIGenerationException SimplePublicationSearchParameters :=
  match retryGenerate attempts 3 with
  | .error c => .error ⟨c⟩
  | .ok p => .ok (mapLLMParamsToApi p)

/-- `httpx.HTTPError`: a network-level error or (via `raise_for_status`)
a non-success HTTP status. -/
structure HTTPErrorE where
  msg : String
  deriving DecidableEq, Repr

/-- The raw HTTP response as the pipeline consumes it: its byte content and
the outcome of `PublicationSearchResponse(**api_response.json())` — a parse
failure models a malformed envelope (bad JSON or schema mismatch). -/
structure ApiResponse where
  content : String
  parsed : Except String PublicationSearchResponse
  deriving Repr

/-- The value injected for the `apikey` entry: the `BHL_API_KEY`
environment variable, or `None` when unset. -/
def tokenValue : Option String → PValue
  | some t => .vStr t
  | none => .vNone

/-- `_pub_search` (`search_bhl.py`, lines 207-214): `api_params |= {"apikey":
token}` mutates the caller's dict in place before the GET is issued; the
returned pair is (the mutated dict, the transport outcome). The transmitted
parameter set of the GET is exactly the mutated dict. -/
def pubSearch (api_params : Dict) (token : Option String)
    (outcome : Except HTTPErrorE ApiResponse) : Dict × Except HTTPErrorE ApiResponse :=
  let api_params := dictInsert api_params "apikey" (tokenValue token)
  (api_params, outcome)

/-- Lines 60-64 of `search_bhl.py`: coerce falsy dumped values to `""`,
then `api_params |= {"op": ..., "format": "json"} | api_params`. -/
def buildApiParams (params : SimplePublicationSearchParameters) : Dict :=
  let api_params := (modelDump params).map (fun kv => (kv.1, kv.2.orEmptyStr))
  dictMerge api_params
    (dictMerge [("op", .vStr "PublicationSearch"), ("format", .vStr "json")] api_params)

/-- Line 66: the falsy-pruned copy of the outbound map, used for logging. -/
def cleanedApiParams (params : SimplePublicationSearchParameters) : Dict :=
  pruneFalsy (buildApiParams params)

/-- The artifact metadata dict (`search_bhl.py`, lines 91-95). -/
structure ArtifactMeta where
  data_source : String
  api_url : String
  api_parameters : Dict
  deriving DecidableEq, Repr

/-- An artifact emitted through `process.create_artifact`. -/
structure ArtifactMsg where
  mimetype : String
  description : String
  content : String
  metadata : ArtifactMeta
  deriving DecidableEq, Repr

/-- One message emitted through the response context: a process log line
(with optional structured payload), an artifact, or a terminal reply. -/
inductive Msg where
  | log (text : String) (data : Option Dict)
  | artifact (a : ArtifactMsg)
  | reply (text : String)
  deriving DecidableEq, Repr

/-- The observable outcome of one `run` invocation: the emitted messages in
order, the description of an exception escaping `run` uncaught (if any),
the number of calls made to `_pub_search`, and the parameter set actually
transmitted in the HTTP GET (when a call was made). -/
structure RunResult where
  msgs : List Msg
  escaped : Option String
  searchCalls : Nat
  transmitted : Option Dict
  deriving Repr

/-- The external inputs of one `run` invocation: the generation service's
attempt outcomes, the `BHL_API_KEY` configuration value, and the search
API transport outcome. -/
structure RunInput where
  genAttempts : List GenAttempt
  bhlApiKey : Option String
  httpOutcome : Except HTTPErrorE ApiResponse

/-- The success-reply text (`search_bhl.py`, lines 98-102). -/
def successReply (num_pubs : Nat) (page pageSize : Int) : String :=
  "The BHL API returned " ++ toString num_pubs ++ " publications in page "
    ++ toString page ++ " (page size " ++ toString pageSize
    ++ "). The API URL I provided will not work directly, because it requires"
    ++ " an access token parameter. To get around this, I have provided the"
    ++ " API response in an artifact."

/-- `run` (`search_bhl.py`, lines 42-104), translated statement by
statement. -/
def run (inp : RunInput) : RunResult :=
  let m0 : List Msg := [.log "Generating search parameters for BHL API" none]
  match generateSearchParameters inp.genAttempts with
  | .error e =>
    { msgs := m0 ++ [.log (aiGenerationExceptionMessage e) none]
    , escaped := none, searchCalls := 0, transmitted := none }
  | .ok params =>
    let m1 := m0 ++ [.log "Generated search parameters" (some (modelDump params))]
    let api_params := buildApiParams params
    let cleaned_api_params := pruneFalsy api_params
    let m2 := m1 ++
      [.log "Sending a GET request to the BHL publication search API" (some cleaned_api_params)]
    let searched := pubSearch api_params inp.bhlApiKey inp.httpOutcome
    let api_params := searched.1
    match searched.2 with
    | .error _ =>
      { msgs := m2 ++ [.log "An error occurred while querying BHL" none]
      , escaped := none, searchCalls := 1, transmitted := some api_params }
    | .ok api_response =>
      match api_response.parsed with
      | .error pe =>
        { msgs := m2, escaped := some pe, searchCalls := 1, transmitted := some api_params }
      | .ok search_results =>
        if search_results.status ≠ some "ok" then
          { msgs := m2 ++ [.log ("Something went wrong! Message from the BHL API: "
              ++ pyStrOptional search_results.error_message) none]
          , escaped := none, searchCalls := 1, transmitted := some api_params }
        else
          let m3 := if truthyOptStr search_results.error_message then
              m2 ++ [.log ("API returned an error message: "
                ++ pyStrOptional search_results.error_message) none]
            else m2
          let num_pubs := search_results.result.length
          if num_pubs > 0 then
            { msgs := m3 ++
                [.artifact
                  { mimetype := "application/json"
                  , description := "BHL search results"
                  , content := api_response.content
                  , metadata :=
                    { data_source := "BHL", api_url := API_URL, api_parameters := api_params } },
                 .reply (successReply num_pubs params.page params.pageSize)]
            , escaped := none, searchCalls := 1, transmitted := some api_params }
          else
            { msgs := m3 ++ [.reply "The BHL API returned no matching publications."]
            , escaped := none, searchCalls := 1, transmitted := some api_params }

/-- `BHLAgent.run` (`agent.py`, lines 30-36): dispatch on the entrypoint
id; an unknown entrypoint raises `ValueError`, and any exception escaping
`search_bhl.run` passes through uncaught. -/
def agentRun (inp : RunInput) (entrypoint : String) : RunResult :=
  if entrypoint = "search_bhl" then run inp
  else { msgs := [], escaped := some "ValueError", searchCalls := 0, transmitted := none }

/-- Artifacts among the emitted messages, in order. -/
def artifactsOf (msgs : List Msg) : List ArtifactMsg :=
  msgs.filterMap (fun m => match m with | .artifact a => some a | _ => none)

/-- Reply texts among the emitted messages, in order. -/
def repliesOf (msgs : List Msg) : List String :=
  msgs.filterMap (fun m => match m with | .reply t => some t | _ => none)

/-- Log entries among the emitted messages, in order. -/
def logsOf (msgs : List Msg) : List (String × Option Dict) :=
  msgs.filterMap (fun m => match m with | .log t d => some (t, d) | _ => none)

/-- Whether the second character list is an initial segment of the first. -/
def charsBeginWith : List Char → List Char → Bool
  | _, [] => true
  | [], _ :: _ => false
  | c :: cs, p :: ps => c = p && charsBeginWith cs ps

/-- Whether the second character list occurs contiguously in the first. -/
def charsContain : List Char → List Char → Bool
  | [], pat => pat.isEmpty
  | c :: cs, pat => charsBeginWith (c :: cs) pat || charsContain cs pat

/-- Whether one string occurs as a substring of another. -/
def strContains (hay pat : String) : Bool :=
  charsContain hay.data pat.data

end BHL

namespace BHL

/-! ### Helper lemmas -/

/-- The claim-shaped join: the terms concatenated in order with the literal
separator `" OR "` between consecutive terms, nothing before the first term
and nothing after the last. -/
def orJoinSpec : List String → String
  | [] => ""
  | [t] => t
  | t :: rest => t ++ " OR " ++ orJoinSpec rest

/-- The tail of an intercalation: each remaining term preceded by the
separator. -/
def tailJoin (sep : String) : List String → String
  | [] => ""
  | a :: as => sep ++ a ++ tailJoin sep as

theorem intercalate_go_eq (sep : String) :
    ∀ (as : List String) (acc : String),
      String.intercalate.go acc sep as = acc ++ tailJoin sep as := by
  intro as
  induction as with
  | nil => intro acc; simp [String.intercalate.go, tailJoin]
  | cons a as ih =>
    intro acc
    simp [String.intercalate.go, tailJoin, ih, String.append_assoc]

theorem orJoinSpec_cons (a : String) (as : List String) :
    orJoinSpec (a :: as) = a ++ tailJoin " OR " as := by
  induction as generalizing a with
  | nil => simp [orJoinSpec, tailJoin]
  | cons b bs ih =>
    simp only [orJoinSpec, tailJoin, ih b, String.append_assoc]

theorem intercalate_or_eq_orJoinSpec (l : List String) :
    String.intercalate " OR " l = orJoinSpec l := by
  cases l with
  | nil => rfl
  | cons a as =>
    simp [String.intercalate, intercalate_go_eq, orJoinSpec_cons]

theorem orJoinSpec_length (l : List String) :
    (orJoinSpec l).length = (l.map String.length).sum + 4 * (l.length - 1) := by
  induction l with
  | nil => simp [orJoinSpec]
  | cons a as ih =>
    cases as with
    | nil => simp [orJoinSpec]
    | cons b bs =>
      simp only [orJoinSpec, String.length_append, ih, List.map_cons, List.sum_cons,
        List.length_cons]
      have : (" OR ".length) = 4 := rfl
      omega

end BHL

namespace BHL

/-- The three process-log entries emitted before the search call is made. -/
def progressLogs (params : SimplePublicationSearchParameters) : List Msg :=
  [.log "Generating search parameters for BHL API" none,
   .log "Generated search parameters" (some (modelDump params)),
   .log "Sending a GET request to the BHL publication search API"
     (some (pruneFalsy (buildApiParams params)))]

theorem run_genFailure (inp : RunInput) (e : AIGenerationException)
    (hgen : generateSearchParameters inp.genAttempts = .error e) :
    run inp =
      { msgs := [.log "Generating search parameters for BHL API" none,
                 .log (aiGenerationExceptionMessage e) none]
      , escaped := none, searchCalls := 0, transmitted := none } := by
  simp [run, hgen]

theorem run_transportFailure (inp : RunInput)
    (params : SimplePublicationSearchParameters) (err : HTTPErrorE)
    (hgen : generateSearchParameters inp.genAttempts = .ok params)
    (hhttp : inp.httpOutcome = .error err) :
    run inp =
      { msgs := progressLogs params ++ [.log "An error occurred while querying BHL" none]
      , escaped := none, searchCalls := 1
      , transmitted := some (dictInsert (buildApiParams params) "apikey"
          (tokenValue inp.bhlApiKey)) } := by
  simp [run, hgen, hhttp, pubSearch, progressLogs]

theorem run_parseFailure (inp : RunInput)
    (params : SimplePublicationSearchParameters) (resp : ApiResponse) (pe : String)
    (hgen : generateSearchParameters inp.genAttempts = .ok params)
    (hhttp : inp.httpOutcome = .ok resp)
    (hparsed : resp.parsed = .error pe) :
    run inp =
      { msgs := progressLogs params
      , escaped := some pe, searchCalls := 1
      , transmitted := some (dictInsert (buildApiParams params) "apikey"
          (tokenValue inp.bhlApiKey)) } := by
  simp [run, hgen, hhttp, hparsed, pubSearch, progressLogs]

theorem run_apiFailure (inp : RunInput)
    (params : SimplePublicationSearchParameters) (resp : ApiResponse)
    (sr : PublicationSearchResponse)
    (hgen : generateSearchParameters inp.genAttempts = .ok params)
    (hhttp : inp.httpOutcome = .ok resp)
    (hparsed : resp.parsed = .ok sr)
    (hstatus : sr.status ≠ some "ok") :
    run inp =
      { msgs := progressLogs params ++
          [.log ("Something went wrong! Message from the BHL API: "
            ++ pyStrOptional sr.error_message) none]
      , escaped := none, searchCalls := 1
      , transmitted := some (dictInsert (buildApiParams params) "apikey"
          (tokenValue inp.bhlApiKey)) } := by
  simp [run, hgen, hhttp, hparsed, pubSearch, progressLogs, hstatus]

theorem run_successNonempty (inp : RunInput)
    (params : SimplePublicationSearchParameters) (resp : ApiResponse)
    (sr : PublicationSearchResponse)
    (hgen : generateSearchParameters inp.genAttempts = .ok params)
    (hhttp : inp.httpOutcome = .ok resp)
    (hparsed : resp.parsed = .ok sr)
    (hstatus : sr.status = some "ok")
    (hpos : 0 < sr.result.length) :
    run inp =
      { msgs := progressLogs params ++
          (if truthyOptStr sr.error_message then
            [.log ("API returned an error message: "
              ++ pyStrOptional sr.error_message) none]
           else []) ++
          [.artifact
            { mimetype := "application/json"
            , description := "BHL search results"
            , content := resp.content
            , metadata :=
              { data_source := "BHL", api_url := API_URL
              , api_parameters := dictInsert (buildApiParams params) "apikey"
                  (tokenValue inp.bhlApiKey) } },
           .reply (successReply sr.result.length params.page params.pageSize)]
      , escaped := none, searchCalls := 1
      , transmitted := some (dictInsert (buildApiParams params) "apikey"
          (tokenValue inp.bhlApiKey)) } := by
  cases htru : truthyOptStr sr.error_message <;>
    simp [run, hgen, hhttp, hparsed, pubSearch, progressLogs, hstatus, hpos, htru,
      List.append_assoc]

theorem run_successEmpty (inp : RunInput)
    (params : SimplePublicationSearchParameters) (resp : ApiResponse)
    (sr : PublicationSearchResponse)
    (hgen : generateSearchParameters inp.genAttempts = .ok params)
    (hhttp : inp.httpOutcome = .ok resp)
    (hparsed : resp.parsed = .ok sr)
    (hstatus : sr.status = some "ok")
    (hempty : sr.result = []) :
    run inp =
      { msgs := progressLogs params ++
          (if truthyOptStr sr.error_message then
            [.log ("API returned an error message: "
              ++ pyStrOptional sr.error_message) none]
           else []) ++
          [.reply "The BHL API returned no matching publications."]
      , escaped := none, searchCalls := 1
      , transmitted := some (dictInsert (buildApiParams params) "apikey"
          (tokenValue inp.bhlApiKey)) } := by
  cases htru : truthyOptStr sr.error_message <;>
    simp [run, hgen, hhttp, hparsed, pubSearch, progressLogs, hstatus, htru, hempty,
      List.append_assoc]

theorem artifactsOf_append (a b : List Msg) :
    artifactsOf (a ++ b) = artifactsOf a ++ artifactsOf b := by
  simp [artifactsOf]

theorem repliesOf_append (a b : List Msg) :
    repliesOf (a ++ b) = repliesOf a ++ repliesOf b := by
  simp [repliesOf]

theorem artifactsOf_progressLogs (params : SimplePublicationSearchParameters) :
    artifactsOf (progressLogs params) = [] := by
  simp [artifactsOf, progressLogs]

theorem repliesOf_progressLogs (params : SimplePublicationSearchParameters) :
    repliesOf (progressLogs params) = [] := by
  simp [repliesOf, progressLogs]

theorem buildApiParams_eq (params : SimplePublicationSearchParameters) :
    buildApiParams params =
      [("searchterm", (PValue.vStr params.searchterm).orEmptyStr),
       ("searchtype", (PValue.vStr params.searchtype).orEmptyStr),
       ("page", (PValue.vInt params.page).orEmptyStr),
       ("pageSize", (PValue.vInt params.pageSize).orEmptyStr),
       ("op", PValue.vStr "PublicationSearch"),
       ("format", PValue.vStr "json")] := by
  simp [buildApiParams, modelDump, dictMerge, dictInsert, List.foldl, List.any]

/-! ### Concrete example inputs used by witnesses and counterexamples -/

/-- A concrete intermediate generation result (as in end-to-end scenario A). -/
def exLLM : LLMSimpleSearchParameters :=
  { search_terms := ["Rattus rattus", "Rattus gigantus"]
  , search_type := "catalog", page := 2, page_size := 50 }

/-- The simple search parameters `exLLM` maps to. -/
def exParams : SimplePublicationSearchParameters := mapLLMParamsToApi exLLM

/-- A concrete publication record. -/
def exPub : Publication := { bhl_type := "Part", found_in := "Metadata" }

/-! ### Claims -/

/-- C1: the spec claims the artifact metadata carries source name, endpoint
URL and the outbound query map with the search parameters only, never the
injected apikey credential. Evaluating the pipeline at a concrete fully
successful run shows the single emitted artifact's `api_parameters`
metadata does contain the credential entry: `_pub_search` mutates the
caller's `api_params` dict in place (`api_params |= {"apikey": token}`)
before `run` builds the metadata from that same dict. -/
theorem C1_artifact_metadata_contains_credential :
    (artifactsOf (run
      { genAttempts := [GenAttempt.success exLLM]
      , bhlApiKey := some "SECRET_TOKEN_123"
      , httpOutcome := Except.ok
          { content := "RAW_RESPONSE"
          , parsed := Except.ok
              { status := some "ok", error_message := none
              , result := [exPub] } } }).msgs).map
        (fun a => dictLookup a.metadata.api_parameters "apikey")
      = [some (PValue.vStr "SECRET_TOKEN_123")] := by decide

/-- C7: for every intermediate generation result with at least one search
term, the synthesized `searchterm` equals the terms concatenated in order
with the literal separator `" OR "` between consecutive terms
(`orJoinSpec`), and its length is exactly the terms' total length plus
4·(N−1) separator characters — so the join adds no leading or trailing
separator. -/
theorem C7_searchterm_or_join (p : LLMSimpleSearchParameters)
    (h : 1 ≤ p.search_terms.length) :
    (mapLLMParamsToApi p).searchterm = orJoinSpec p.search_terms ∧
    (mapLLMParamsToApi p).searchterm.length =
      (p.search_terms.map String.length).sum + 4 * (p.search_terms.length - 1) := by
  constructor
  · simp [mapLLMParamsToApi, intercalate_or_eq_orJoinSpec]
  · simp [mapLLMParamsToApi, intercalate_or_eq_orJoinSpec, orJoinSpec_length]

/-- Witness for C7 at a two-term list. -/
theorem C7_searchterm_or_join_witness :
    1 ≤ exLLM.search_terms.length ∧
    ((mapLLMParamsToApi exLLM).searchterm = orJoinSpec exLLM.search_terms ∧
     (mapLLMParamsToApi exLLM).searchterm.length =
       (exLLM.search_terms.map String.length).sum + 4 * (exLLM.search_terms.length - 1)) :=
  ⟨by decide, C7_searchterm_or_join exLLM (by decide)⟩

/-- C10: the `search_type` field default is the string `"C"`, which lies
outside the declared two-value domain and is accepted unvalidated (pydantic
does not validate defaults), and the scope mapping, comparing only against
`"catalog"`, maps it to searchtype `"F"`. -/
theorem C10_default_search_type :
    validateSearchType none = Except.ok "C" ∧
    "C" ∉ search_type_domain ∧
    ∀ p : LLMSimpleSearchParameters, p.search_type = "C" →
      (mapLLMParamsToApi p).searchtype = "F" := by
  refine ⟨rfl, by decide, ?_⟩
  intro p hp
  simp [mapLLMParamsToApi, hp]

/-- Witness for C10: a generation result carrying the default scope value
is mapped to the catalog+full-text code. -/
theorem C10_default_search_type_witness :
    validateSearchType none = Except.ok "C" ∧
    (mapLLMParamsToApi
      { search_terms := ["Rattus rattus"], search_type := "C"
      , page := 1, page_size := 100 }).searchtype = "F" :=
  ⟨C10_default_search_type.1, C10_default_search_type.2.2 _ rfl⟩

/-- A run whose parsed envelope has no "ok" status (here: an absent status
with an error message and a non-empty result list). -/
def inputApiError : RunInput :=
  { genAttempts := [.success exLLM]
  , bhlApiKey := some "SECRET_TOKEN_123"
  , httpOutcome := .ok
      { content := "RAW_RESPONSE"
      , parsed := .ok
          { status := none, error_message := some "Unable to decode request"
          , result := [exPub] } } }

/-- C3: whenever the parsed envelope's status is not the success token
`"ok"` (an absent status included), the run's outcome is the ApiFailure
path: one log entry carrying the API's error message is appended to the
progress logs, no artifact is created, no reply is sent, and no exception
escapes — even when the envelope's result list is non-empty. -/
theorem C3_non_ok_status_api_failure (inp : RunInput)
    (params : SimplePublicationSearchParameters) (resp : ApiResponse)
    (sr : PublicationSearchResponse)
    (hgen : generateSearchParameters inp.genAttempts = .ok params)
    (hhttp : inp.httpOutcome = .ok resp)
    (hparsed : resp.parsed = .ok sr)
    (hstatus : sr.status ≠ some "ok") :
    (run inp).msgs = progressLogs params ++
        [Msg.log ("Something went wrong! Message from the BHL API: "
          ++ pyStrOptional sr.error_message) none] ∧
    artifactsOf (run inp).msgs = [] ∧
    repliesOf (run inp).msgs = [] ∧
    (run inp).escaped = none := by
  have h := run_apiFailure inp params resp sr hgen hhttp hparsed hstatus
  simp [h, artifactsOf, repliesOf, progressLogs]

/-- Witness for C3: an envelope with absent status, an error message and a
non-empty result list ends in the ApiFailure outcome. -/
theorem C3_non_ok_status_api_failure_witness :
    (run inputApiError).msgs = progressLogs exParams ++
        [Msg.log ("Something went wrong! Message from the BHL API: "
          ++ pyStrOptional (some "Unable to decode request")) none] ∧
    artifactsOf (run inputApiError).msgs = [] ∧
    repliesOf (run inputApiError).msgs = [] ∧
    (run inputApiError).escaped = none :=
  C3_non_ok_status_api_failure inputApiError exParams
    { content := "RAW_RESPONSE"
    , parsed := .ok
        { status := none, error_message := some "Unable to decode request"
        , result := [exPub] } }
    { status := none, error_message := some "Unable to decode request"
    , result := [exPub] }
    rfl rfl rfl (by decide)

/-- A run on which the generation service fails all three retry attempts
with schema-validation failures. -/
def inputGenExhausted : RunInput :=
  { genAttempts := [.schemaFailure "schema mismatch", .schemaFailure "schema mismatch",
                    .schemaFailure "schema mismatch"]
  , bhlApiKey := some "SECRET_TOKEN_123"
  , httpOutcome := .error { msg := "unreached" } }

/-- C5 counterexample: when generation exhausts its 3-attempt retry budget
the pipeline emits two log entries — the initial progress entry and the
failure entry — not exactly one as the claim states. -/
theorem C5_counterexample_two_log_entries :
    (run inputGenExhausted).msgs =
      [Msg.log "Generating search parameters for BHL API" none,
       Msg.log "InstructorRetryException: max attempts reached" none] ∧
    (logsOf (run inputGenExhausted).msgs).length = 2 ∧
    ¬ (logsOf (run inputGenExhausted).msgs).length = 1 := by decide

/-- C5 amended: on every generation failure (retry budget exhausted or
terminal error) the raised `AIGenerationException` is caught and exactly
one log entry carrying its cause is emitted in addition to the initial
progress entry (two log entries in total); zero search-API calls are made,
zero artifacts are created, zero replies are sent, and nothing escapes. -/
theorem C5_generation_failure_behavior (inp : RunInput)
    (e : AIGenerationException)
    (hgen : generateSearchParameters inp.genAttempts = .error e) :
    (run inp).msgs =
      [Msg.log "Generating search parameters for BHL API" none,
       Msg.log (aiGenerationExceptionMessage e) none] ∧
    (logsOf (run inp).msgs).length = 2 ∧
    artifactsOf (run inp).msgs = [] ∧
    repliesOf (run inp).msgs = [] ∧
    (run inp).searchCalls = 0 ∧
    (run inp).escaped = none := by
  have h := run_genFailure inp e hgen
  simp [h, logsOf, artifactsOf, repliesOf]

/-- Witness for C5: three schema failures exhaust the budget and produce
the amended behavior. -/
theorem C5_generation_failure_behavior_witness :
    (run inputGenExhausted).msgs =
      [Msg.log "Generating search parameters for BHL API" none,
       Msg.log (aiGenerationExceptionMessage ⟨.exhausted⟩) none] ∧
    (logsOf (run inputGenExhausted).msgs).length = 2 ∧
    artifactsOf (run inputGenExhausted).msgs = [] ∧
    repliesOf (run inputGenExhausted).msgs = [] ∧
    (run inputGenExhausted).searchCalls = 0 ∧
    (run inputGenExhausted).escaped = none :=
  C5_generation_failure_behavior inputGenExhausted ⟨.exhausted⟩ rfl

/-- A run whose search call fails at the transport level (HTTP 500). -/
def inputTransportError : RunInput :=
  { genAttempts := [.success exLLM]
  , bhlApiKey := some "SECRET_TOKEN_123"
  , httpOutcome := .error { msg := "Server error 500 Internal Server Error" } }

/-- C6: on every transport-level search failure the pipeline appends
exactly one generic failure log entry — the fixed text
"An error occurred while querying BHL", carrying no data payload, the same
for every credential and every parameter set — creates no artifact, sends
no reply, makes exactly one (unretried) search call, and aborts cleanly. -/
theorem C6_transport_failure_generic_log (inp : RunInput)
    (params : SimplePublicationSearchParameters) (err : HTTPErrorE)
    (hgen : generateSearchParameters inp.genAttempts = .ok params)
    (hhttp : inp.httpOutcome = .error err) :
    (run inp).msgs = progressLogs params ++
        [Msg.log "An error occurred while querying BHL" none] ∧
    ((logsOf (run inp).msgs).filter
        (fun td => td.1 = "An error occurred while querying BHL")).length = 1 ∧
    artifactsOf (run inp).msgs = [] ∧
    repliesOf (run inp).msgs = [] ∧
    (run inp).searchCalls = 1 ∧
    (run inp).escaped = none := by
  have h := run_transportFailure inp params err hgen hhttp
  simp [h, logsOf, artifactsOf, repliesOf, progressLogs]

/-- Witness for C6 (end-to-end scenario D): an HTTP 500 yields the single
generic failure entry, whose text does not contain the concrete credential
value, with zero artifacts. -/
theorem C6_transport_failure_generic_log_witness :
    ((run inputTransportError).msgs = progressLogs exParams ++
        [Msg.log "An error occurred while querying BHL" none] ∧
     ((logsOf (run inputTransportError).msgs).filter
        (fun td => td.1 = "An error occurred while querying BHL")).length = 1 ∧
     artifactsOf (run inputTransportError).msgs = [] ∧
     repliesOf (run inputTransportError).msgs = [] ∧
     (run inputTransportError).searchCalls = 1 ∧
     (run inputTransportError).escaped = none) ∧
    strContains "An error occurred while querying BHL" "SECRET_TOKEN_123" = false :=
  ⟨C6_transport_failure_generic_log inputTransportError exParams
      { msg := "Server error 500 Internal Server Error" } rfl rfl,
   by decide⟩

/-- C8: on every parsed envelope with success status and K > 0 results the
pipeline emits exactly one artifact — mimetype `application/json`,
description `BHL search results`, metadata carrying the fixed endpoint URL —
and exactly one reply, whose text interpolates K, the supplied page number
and the supplied page size (`successReply`). -/
theorem C8_success_artifact_and_reply (inp : RunInput)
    (params : SimplePublicationSearchParameters) (resp : ApiResponse)
    (sr : PublicationSearchResponse) (K : Nat)
    (hgen : generateSearchParameters inp.genAttempts = .ok params)
    (hhttp : inp.httpOutcome = .ok resp)
    (hparsed : resp.parsed = .ok sr)
    (hstatus : sr.status = some "ok")
    (hK : sr.result.length = K)
    (hpos : 0 < K) :
    artifactsOf (run inp).msgs =
      [{ mimetype := "application/json"
       , description := "BHL search results"
       , content := resp.content
       , metadata :=
         { data_source := "BHL", api_url := API_URL
         , api_parameters := dictInsert (buildApiParams params) "apikey"
             (tokenValue inp.bhlApiKey) } }] ∧
    repliesOf (run inp).msgs = [successReply K params.page params.pageSize] ∧
    (run inp).escaped = none := by
  subst hK
  have h := run_successNonempty inp params resp sr hgen hhttp hparsed hstatus hpos
  cases htru : truthyOptStr sr.error_message <;>
    simp [h, htru, artifactsOf, repliesOf, progressLogs]

/-- A fully successful run returning two publications. -/
def inputSuccessTwo : RunInput :=
  { genAttempts := [.success exLLM]
  , bhlApiKey := some "SECRET_TOKEN_123"
  , httpOutcome := .ok
      { content := "RAW_RESPONSE"
      , parsed := .ok
          { status := some "ok", error_message := none
          , result := [exPub, exPub] } } }

/-- Witness for C8: a success envelope with two results produces the single
artifact and the single reply mentioning K = 2, page 2, page size 50. -/
theorem C8_success_artifact_and_reply_witness :
    artifactsOf (run inputSuccessTwo).msgs =
      [{ mimetype := "application/json"
       , description := "BHL search results"
       , content := "RAW_RESPONSE"
       , metadata :=
         { data_source := "BHL", api_url := API_URL
         , api_parameters := dictInsert (buildApiParams exParams) "apikey"
             (tokenValue (some "SECRET_TOKEN_123")) } }] ∧
    repliesOf (run inputSuccessTwo).msgs = [successReply 2 exParams.page exParams.pageSize] ∧
    (run inputSuccessTwo).escaped = none :=
  C8_success_artifact_and_reply inputSuccessTwo exParams
    { content := "RAW_RESPONSE"
    , parsed := .ok
        { status := some "ok", error_message := none, result := [exPub, exPub] } }
    { status := some "ok", error_message := none, result := [exPub, exPub] }
    2 rfl rfl rfl rfl rfl (by decide)

/-- A fully successful run returning zero publications. -/
def inputSuccessEmpty : RunInput :=
  { genAttempts := [.success exLLM]
  , bhlApiKey := some "SECRET_TOKEN_123"
  , httpOutcome := .ok
      { content := "RAW_EMPTY"
      , parsed := .ok
          { status := some "ok", error_message := none, result := [] } } }

/-- C9: on every parsed envelope with success status and an empty result
list the pipeline emits exactly one plain reply — whose text contains
"no matching" — and creates zero artifacts. -/
theorem C9_success_empty_reply (inp : RunInput)
    (params : SimplePublicationSearchParameters) (resp : ApiResponse)
    (sr : PublicationSearchResponse)
    (hgen : generateSearchParameters inp.genAttempts = .ok params)
    (hhttp : inp.httpOutcome = .ok resp)
    (hparsed : resp.parsed = .ok sr)
    (hstatus : sr.status = some "ok")
    (hempty : sr.result = []) :
    repliesOf (run inp).msgs = ["The BHL API returned no matching publications."] ∧
    strContains "The BHL API returned no matching publications." "no matching" = true ∧
    artifactsOf (run inp).msgs = [] ∧
    (run inp).escaped = none := by
  have h := run_successEmpty inp params resp sr hgen hhttp hparsed hstatus hempty
  refine ⟨?_, by decide, ?_, ?_⟩ <;>
    cases htru : truthyOptStr sr.error_message <;>
      simp [h, htru, artifactsOf, repliesOf, progressLogs]

/-- Witness for C9 (end-to-end scenario B): zero publications yield exactly
the "no matching" reply and no artifact. -/
theorem C9_success_empty_reply_witness :
    repliesOf (run inputSuccessEmpty).msgs =
      ["The BHL API returned no matching publications."] ∧
    strContains "The BHL API returned no matching publications." "no matching" = true ∧
    artifactsOf (run inputSuccessEmpty).msgs = [] ∧
    (run inputSuccessEmpty).escaped = none :=
  C9_success_empty_reply inputSuccessEmpty exParams
    { content := "RAW_EMPTY"
    , parsed := .ok { status := some "ok", error_message := none, result := [] } }
    { status := some "ok", error_message := none, result := [] }
    rfl rfl rfl rfl rfl

/-- A run whose generated parameters contain a falsy field: `page = 0`
(coerced to the empty string on line 60 of `search_bhl.py`). The search
call then fails, which is irrelevant to the transmitted parameter set. -/
def inputFalsyPage : RunInput :=
  { genAttempts := [.success
      { search_terms := ["Rattus rattus"], search_type := "catalog"
      , page := 0, page_size := 100 }]
  , bhlApiKey := some "SECRET_TOKEN_123"
  , httpOutcome := .error { msg := "Server error 500 Internal Server Error" } }

/-- C2 counterexample: the claim says every empty/falsy-valued key is
absent from the parameter set actually transmitted in the HTTP GET. At a
run with `page = 0` the transmitted set (the dict `_pub_search` passes to
`client.get`) still carries the key `page` with the falsy value `""`:
line 66 prunes only the copy that is logged, while line 70 transmits the
unpruned `api_params`. -/
theorem C2_counterexample_falsy_key_transmitted :
    (run inputFalsyPage).transmitted.isSome = true ∧
    dictLookup ((run inputFalsyPage).transmitted.getD []) "page"
      = some (PValue.vStr "") ∧
    PValue.truthy (PValue.vStr "") = false := by decide

/-- C2 amended: falsy-valued entries are pruned only from the logged copy
of the outbound map (`cleaned_api_params`); the parameter set actually
transmitted is the full built map with the credential entry appended,
and the credential `apikey` is present and non-empty in the transmitted
set whenever configuration is valid. -/
theorem C2_transmitted_params_and_credential
    (params : SimplePublicationSearchParameters) (token : Option String)
    (t : String) (outcome : Except HTTPErrorE ApiResponse)
    (htok : token = some t) (hne : t ≠ "") :
    (pubSearch (buildApiParams params) token outcome).1
        = buildApiParams params ++ [("apikey", PValue.vStr t)] ∧
    dictLookup ((pubSearch (buildApiParams params) token outcome).1) "apikey"
        = some (PValue.vStr t) ∧
    PValue.truthy (PValue.vStr t) = true ∧
    (∀ kv ∈ pruneFalsy (buildApiParams params), PValue.truthy kv.2 = true) := by
  subst htok
  refine ⟨?_, ?_, ?_, ?_⟩
  · simp [pubSearch, tokenValue, dictInsert, buildApiParams_eq]
  · simp [pubSearch, tokenValue, dictInsert, dictLookup, buildApiParams_eq, List.find?]
  · simp [PValue.truthy, hne]
  · intro kv hkv
    exact (List.mem_filter.mp hkv).2

/-- Witness for C2: at the `page = 0` parameters and a configured
credential, the transmitted set is the unpruned map plus the credential
entry, and the logged copy holds only truthy values. -/
theorem C2_transmitted_params_and_credential_witness :
    ((pubSearch (buildApiParams (mapLLMParamsToApi
        { search_terms := ["Rattus rattus"], search_type := "catalog"
        , page := 0, page_size := 100 }))
        (some "SECRET_TOKEN_123")
        (.error { msg := "Server error 500 Internal Server Error" })).1
      = buildApiParams (mapLLMParamsToApi
          { search_terms := ["Rattus rattus"], search_type := "catalog"
          , page := 0, page_size := 100 }) ++ [("apikey", PValue.vStr "SECRET_TOKEN_123")] ∧
    dictLookup ((pubSearch (buildApiParams (mapLLMParamsToApi
        { search_terms := ["Rattus rattus"], search_type := "catalog"
        , page := 0, page_size := 100 }))
        (some "SECRET_TOKEN_123")
        (.error { msg := "Server error 500 Internal Server Error" })).1) "apikey"
      = some (PValue.vStr "SECRET_TOKEN_123") ∧
    PValue.truthy (PValue.vStr "SECRET_TOKEN_123") = true ∧
    (∀ kv ∈ pruneFalsy (buildApiParams (mapLLMParamsToApi
        { search_terms := ["Rattus rattus"], search_type := "catalog"
        , page := 0, page_size := 100 })), PValue.truthy kv.2 = true)) :=
  C2_transmitted_params_and_credential
    (mapLLMParamsToApi
      { search_terms := ["Rattus rattus"], search_type := "catalog"
      , page := 0, page_size := 100 })
    (some "SECRET_TOKEN_123") "SECRET_TOKEN_123"
    (.error { msg := "Server error 500 Internal Server Error" })
    rfl (by decide)

/-- A run whose HTTP response body does not match the envelope schema. -/
def inputMalformedEnvelope : RunInput :=
  { genAttempts := [.success exLLM]
  , bhlApiKey := some "SECRET_TOKEN_123"
  , httpOutcome := .ok
      { content := "Bad Gateway"
      , parsed := .error "validation error for PublicationSearchResponse" } }

/-- C4 counterexample: the claim says the parse failure is handled at the
pipeline's outermost boundary so that no raw exception escapes the run
operation to the caller. At a malformed response body the exception
escapes both `search_bhl.run` and `BHLAgent.run` uncaught: only the three
progress logs were emitted, no log entry or reply converts the failure. -/
theorem C4_counterexample_exception_escapes :
    (agentRun inputMalformedEnvelope "search_bhl").escaped
      = some "validation error for PublicationSearchResponse" ∧
    (logsOf (agentRun inputMalformedEnvelope "search_bhl").msgs).length = 3 ∧
    artifactsOf (agentRun inputMalformedEnvelope "search_bhl").msgs = [] ∧
    repliesOf (agentRun inputMalformedEnvelope "search_bhl").msgs = [] := by decide

/-- C4 amended: a response body that does not match the envelope schema
makes the parse failure propagate out of the result-interpretation step
unmasked — it escapes `search_bhl.run` and `BHLAgent.run` uncaught to the
hosting framework, carrying the original parse error; within the pipeline
no artifact, no reply, and no failure log entry is produced for it. -/
theorem C4_parse_failure_escapes (inp : RunInput)
    (params : SimplePublicationSearchParameters) (resp : ApiResponse)
    (pe : String)
    (hgen : generateSearchParameters inp.genAttempts = .ok params)
    (hhttp : inp.httpOutcome = .ok resp)
    (hparsed : resp.parsed = .error pe) :
    (agentRun inp "search_bhl").escaped = some pe ∧
    (agentRun inp "search_bhl").msgs = progressLogs params ∧
    artifactsOf (agentRun inp "search_bhl").msgs = [] ∧
    repliesOf (agentRun inp "search_bhl").msgs = [] := by
  have ha : agentRun inp "search_bhl" = run inp := by simp [agentRun]
  have h := run_parseFailure inp params resp pe hgen hhttp hparsed
  simp [ha, h, artifactsOf, repliesOf, progressLogs]

/-- Witness for C4: the malformed-envelope run escapes with the original
parse error and produces no artifact or reply. -/
theorem C4_parse_failure_escapes_witness :
    (agentRun inputMalformedEnvelope "search_bhl").escaped
      = some "validation error for PublicationSearchResponse" ∧
    (agentRun inputMalformedEnvelope "search_bhl").msgs = progressLogs exParams ∧
    artifactsOf (agentRun inputMalformedEnvelope "search_bhl").msgs = [] ∧
    repliesOf (agentRun inputMalformedEnvelope "search_bhl").msgs = [] :=
  C4_parse_failure_escapes inputMalformedEnvelope exParams
    { content := "Bad Gateway"
    , parsed := .error "validation error for PublicationSearchResponse" }
    "validation error for PublicationSearchResponse"
    rfl rfl rfl

end BHL
